import Mathlib

/-
Shallow embedding of the transaction microservice of the GolangMarketplace
repository (file: src/Assignment3 microservice/main.go).

Modelling conventions:
* Go `float64` prices are embedded as exact rationals `ℚ`; the price-summing
  code is a plain left fold of addition, which is what the claims are about.
* `time.Now()` is embedded as a clock read: each syntactic call site of
  `time.Now()` receives its own instant (a `Nat`).  `createTransaction` calls
  `time.Now()` twice (once for `CreatedAt`, once for `UpdatedAt`, main.go
  lines 142-143), so it takes two instants `now1 now2`; a monotonic clock
  gives `now1 ≤ now2`, equality only when the two reads coincide.
* The Mongo collection is embedded as a `Store`: the list of persisted
  transactions in insertion order plus a counter used to generate fresh
  object ids (Mongo generates an `_id` when the inserted document's `ID`
  field is empty, per the `bson:"_id,omitempty"` tag).
* Fallible store / file-system operations take an explicit boolean failure
  input (`insertFails`, `pdfFails`, `findFails`) standing for the
  environment's behaviour, and results are modelled as explicit result types
  mirroring the JSON responses the handlers produce.
-/

set_option autoImplicit false

namespace Marketplace

/-- Go struct `Product` (main.go lines 30-33): a cart line item. -/
structure Product where
  name : String
  price : ℚ
deriving DecidableEq

/-- Go struct `Customer` (main.go lines 35-39). -/
structure Customer where
  id : String
  name : String
  email : String
deriving DecidableEq

/-- Go struct `Transaction` (main.go lines 41-49); field names are the JSON
tags.  Timestamps are clock instants (`Nat`). -/
structure Transaction where
  id : String
  cartItems : List Product
  customer : Customer
  status : String
  createdAt : Nat
  updatedAt : Nat
  totalPrice : ℚ
deriving DecidableEq

/-- `calculateTotalPrice` (main.go lines 178-184): left fold of `+` over the
item prices starting from the zero value of `float64`. -/
def calculateTotalPrice (items : List Product) : ℚ :=
  items.foldl (fun total item => total + item.price) 0

/-- The Mongo `transactions` collection: persisted records in insertion
order, plus the store-side generator state for fresh object ids. -/
structure Store where
  transactions : List Transaction
  nextOid : Nat
deriving DecidableEq

/-- A fresh Mongo object id for the `n`-th insert: 24 lowercase hex
characters (Mongo object ids are 12 bytes rendered as 24 hex digits). -/
def genOid (n : Nat) : String :=
  let ds := Nat.toDigits 16 n
  String.mk (List.replicate (24 - ds.length) '0' ++ ds)

/-- Result of the `createTransaction` handler, mirroring its three JSON
responses (400 bad request, 500 insert failure, 200 with the transaction). -/
inductive CreateResult where
  | badRequest (msg : String)
  | serverError (msg : String)
  | ok (t : Transaction)
deriving DecidableEq

/-- Everything observable about one `createTransaction` call: the HTTP
result, the store afterwards, whether `generatePDF` was invoked, and the
console log lines. -/
structure CreateOutcome where
  result : CreateResult
  store : Store
  pdfInvoked : Bool
  logs : List String
deriving DecidableEq

/-- The text cells of the receipt produced by `generatePDF` (main.go lines
193-241), in document order: header block, one line per item, summary block
(item count, total, payment-method label "CARD"), footer block. -/
def receiptLines (items : List Product) (totalPrice : ℚ) (totalNumberOfItems : Nat) : List String :=
  ["START OF FISCAL RECEIPT", "Maximus & Kuka Ltd", "TIN: 098908978",
   "Welcome to our shop!"]
  ++ items.map (fun item => item.name)
  ++ ["NUMBER OF ITEMS", toString totalNumberOfItems,
      "TOTAL", toString totalPrice,
      "CARD", toString totalPrice,
      "THANK YOU", "COME BACK AGAIN"]

/-- `generatePDF` (main.go lines 193-249): renders the receipt and writes it
to the fixed path `receipt.pdf`; a write failure (`pdfFails`) is only
printed to the console (main.go lines 243-248) — the function returns
nothing to its caller.  The embedding returns the log line it prints. -/
def generatePDF (items : List Product) (totalPrice : ℚ) (totalNumberOfItems : Nat)
    (pdfFails : Bool) : String :=
  let _ := receiptLines items totalPrice totalNumberOfItems
  if pdfFails then "Error:" else "Receipt generated successfully"

/-- `createTransaction` (main.go lines 133-155) after JSON binding:
`transaction` is the client-supplied body bound into a `Transaction` value.
The handler overwrites `totalPrice`, `status`, `createdAt`, `updatedAt`
(lines 140-143), inserts into the collection (line 145; `insertFails` is the
store's behaviour), and on success invokes `generatePDF` (line 152) and
returns the in-memory `transaction` value (line 154). -/
def createTransaction (s : Store) (transaction : Transaction) (now1 now2 : Nat)
    (insertFails : Bool) (pdfFails : Bool) : CreateOutcome :=
  let t1 : Transaction :=
    { transaction with
        totalPrice := calculateTotalPrice transaction.cartItems
        status := "awaiting payment"
        createdAt := now1
        updatedAt := now2 }
  if insertFails then
    { result := CreateResult.serverError "failed to insert to DB"
      store := s
      pdfInvoked := false
      logs := ["failed to insert to DB"] }
  else
    let assignedId := if t1.id = "" then genOid s.nextOid else t1.id
    let stored := { t1 with id := assignedId }
    let s' : Store := { transactions := s.transactions ++ [stored], nextOid := s.nextOid + 1 }
    let log := generatePDF t1.cartItems t1.totalPrice t1.cartItems.length pdfFails
    { result := CreateResult.ok t1
      store := s'
      pdfInvoked := true
      logs := [log] }

theorem foldl_add_price (items : List Product) (a : ℚ) :
    items.foldl (fun total item => total + item.price) a
      = a + (items.map Product.price).sum := by
  induction items generalizing a with
  | nil => simp
  | cons x xs ih => simp [List.foldl_cons, ih, add_assoc]

theorem calculateTotalPrice_eq_sum (items : List Product) :
    calculateTotalPrice items = (items.map Product.price).sum := by
  simp [calculateTotalPrice, foldl_add_price]

/-- C1: for every cart-item sequence (including the empty one), the
transaction returned by `createTransaction` has `totalPrice` equal to the
arithmetic sum of the `price` fields of its `cartItems`, computed at
creation time. -/
theorem create_totalPrice_eq_sum (s : Store) (req : Transaction) (now1 now2 : Nat)
    (insertFails pdfFails : Bool) (t : Transaction)
    (h : (createTransaction s req now1 now2 insertFails pdfFails).result = CreateResult.ok t) :
    t.totalPrice = (t.cartItems.map Product.price).sum := by
  by_cases hf : insertFails
  · simp [createTransaction, hf] at h
  · simp [createTransaction, hf] at h
    subst h
    simp [calculateTotalPrice_eq_sum]

/-- The spec's own end-to-end example cart `[{Widget, 9.99}, {Gadget, 5.00}]`. -/
def sampleCart : List Product := [⟨"Widget", 999/100⟩, ⟨"Gadget", 5⟩]

/-- The spec's end-to-end example customer. -/
def sampleCustomer : Customer := ⟨"c1", "Ann", "a@x.com"⟩

/-- A create-transaction request body: example cart and customer, with the
server-controlled fields left at their zero values. -/
def sampleReq : Transaction := ⟨"", sampleCart, sampleCustomer, "", 0, 0, 0⟩

/-- An empty store whose id generator starts at 1. -/
def emptyStore : Store := ⟨[], 1⟩

/-- A well-formed object id (24 hex characters) used in witnesses. -/
def paidId : String := "aaaaaaaaaaaaaaaaaaaaaaaa"

/-- A persisted example transaction with id `paidId`. -/
def sampleStoredTx : Transaction :=
  ⟨paidId, sampleCart, sampleCustomer, "awaiting payment", 3, 4, 1499/100⟩

/-- A store holding exactly the persisted example transaction. -/
def sampleStore : Store := ⟨[sampleStoredTx], 2⟩

/-- C1 witness: the spec's own end-to-end example cart
`[{Widget, 9.99}, {Gadget, 5.00}]` yields total `14.99`. -/
theorem create_totalPrice_eq_sum_witness :
    ∃ t : Transaction,
      (createTransaction emptyStore sampleReq 3 4 false false).result = CreateResult.ok t
      ∧ t.totalPrice = (t.cartItems.map Product.price).sum
      ∧ t.totalPrice = 1499/100 := by
  refine ⟨_, rfl, create_totalPrice_eq_sum emptyStore sampleReq 3 4 false false _ rfl, ?_⟩
  norm_num [createTransaction, calculateTotalPrice, sampleReq, sampleCart]

/-- A hexadecimal digit, either case (Go's `encoding/hex` accepts both). -/
def isHexChar (c : Char) : Bool :=
  c.isDigit || (('a' ≤ c) && (c ≤ 'f')) || (('A' ≤ c) && (c ≤ 'F'))

/-- A string is a syntactically valid Mongo object id when it is 24 hex
characters (12 bytes hex-encoded). -/
def isValidObjectIDHex (s : String) : Bool :=
  s.length = 24 && s.toList.all isHexChar

/-- The hex rendering of Go's `primitive.NilObjectID` (all zero bytes),
which `ObjectIDFromHex` yields alongside an error on invalid input. -/
def zeroObjectID : String := String.mk (List.replicate 24 '0')

/-- Character-wise ASCII lowercasing (object ids are ASCII hex). -/
def toLowerAscii (s : String) : String := String.mk (s.toList.map Char.toLower)

/-- `primitive.ObjectIDFromHex` as used at main.go line 101: the error
return is discarded there, so an invalid id silently becomes the zero
object id.  Valid ids are normalised to the lowercase hex form that the
store generates, since hex decoding is case-insensitive. -/
def ObjectIDFromHex (s : String) : String :=
  if isValidObjectIDHex s then toLowerAscii s else zeroObjectID

/-- Result of the `pay` handler: the 200 response carrying the post-update
transaction, or the 500 error response. -/
inductive PayResult where
  | ok (t : Transaction)
  | error (msg : String)
deriving DecidableEq

/-- `FindOneAndUpdate` with the `$set {status: "paid", updatedAt: now}`
update and `ReturnDocument(After)` (main.go lines 103-114): update the
first record matching the id and return the post-update record together
with the updated collection; `none` when no record matches. -/
def payUpdate (oid : String) (now : Nat) :
    List Transaction → Option (Transaction × List Transaction)
  | [] => none
  | t :: ts =>
    if t.id = oid then
      let u := { t with status := "paid", updatedAt := now }
      some (u, u :: ts)
    else
      match payUpdate oid now ts with
      | none => none
      | some (u, ts') => some (u, t :: ts')

/-- The `pay` handler (main.go lines 98-121): parse the path id (errors
ignored), find-and-update, answer 500 when the update found nothing. -/
def pay (s : Store) (transactionID : String) (now : Nat) : PayResult × Store :=
  let objectId := ObjectIDFromHex transactionID
  match payUpdate objectId now s.transactions with
  | none => (PayResult.error "Failed to update transaction status", s)
  | some (u, ts') => (PayResult.ok u, { s with transactions := ts' })

/-- The record a query by `_id` would return: first match in the store. -/
def lookupTx (s : Store) (i : String) : Option Transaction :=
  s.transactions.find? (fun t => t.id = i)

theorem payUpdate_of_find?_eq_none (oid : String) (now : Nat)
    (ts : List Transaction) (h : ts.find? (fun t => t.id = oid) = none) :
    payUpdate oid now ts = none := by
  induction ts with
  | nil => rfl
  | cons t ts ih =>
    by_cases hid : t.id = oid
    · rw [List.find?_cons_of_pos _ (by simp [hid])] at h
      simp at h
    · rw [List.find?_cons_of_neg _ (by simp [hid])] at h
      simp [payUpdate, hid, ih h]

theorem payUpdate_of_find?_eq_some (oid : String) (now : Nat)
    (ts : List Transaction) (t : Transaction)
    (h : ts.find? (fun t => t.id = oid) = some t) :
    ∃ ts', payUpdate oid now ts = some ({ t with status := "paid", updatedAt := now }, ts')
      ∧ ts'.find? (fun u => u.id = oid) = some { t with status := "paid", updatedAt := now }
      ∧ ∀ i, i ≠ oid → ts'.find? (fun u => u.id = i) = ts.find? (fun u => u.id = i) := by
  induction ts with
  | nil => simp [List.find?] at h
  | cons x ts ih =>
    by_cases hid : x.id = oid
    · simp [List.find?_cons, hid] at h
      subst h
      refine ⟨{ x with status := "paid", updatedAt := now } :: ts, ?_, ?_, ?_⟩
      · simp [payUpdate, hid]
      · simp [List.find?_cons, hid]
      · intro i hi
        have hxi : ¬ x.id = i := by
          intro hxi
          exact hi (hxi ▸ hid)
        simp [List.find?_cons, hxi]
    · simp [List.find?_cons, hid] at h
      obtain ⟨ts', h1, h2, h3⟩ := ih h
      refine ⟨x :: ts', ?_, ?_, ?_⟩
      · simp [payUpdate, hid, h1]
      · simp [List.find?_cons, hid, h2]
      · intro i hi
        by_cases hxi : x.id = i
        · simp [List.find?_cons, hxi]
        · simp [List.find?_cons, hxi, h3 i hi]

/-- C5: paying an existing transaction sets its status to `"paid"`,
stamps `updatedAt` with the clock read, returns the post-update record (the
same record a subsequent lookup in the updated store yields), and leaves
`id`, `cartItems`, `customer`, `createdAt` and `totalPrice` unchanged. -/
theorem pay_paid_frame (s : Store) (tid : String) (now : Nat) (t : Transaction)
    (h : lookupTx s (ObjectIDFromHex tid) = some t) :
    ∃ u, (pay s tid now).1 = PayResult.ok u
      ∧ u.status = "paid" ∧ u.updatedAt = now
      ∧ u.id = t.id ∧ u.cartItems = t.cartItems ∧ u.customer = t.customer
      ∧ u.createdAt = t.createdAt ∧ u.totalPrice = t.totalPrice
      ∧ lookupTx (pay s tid now).2 (ObjectIDFromHex tid) = some u := by
  obtain ⟨ts', h1, h2, _⟩ :=
    payUpdate_of_find?_eq_some (ObjectIDFromHex tid) now s.transactions t h
  refine ⟨{ t with status := "paid", updatedAt := now },
    ?_, rfl, rfl, rfl, rfl, rfl, rfl, rfl, ?_⟩
  · simp [pay, h1]
  · simp [pay, h1, lookupTx, h2]

/-- C5 witness: paying the stored example transaction at clock read 7
yields status `"paid"`, `updatedAt = 7`, and an unchanged `createdAt`. -/
theorem pay_paid_frame_witness :
    lookupTx sampleStore (ObjectIDFromHex paidId) = some sampleStoredTx
    ∧ ∃ u, (pay sampleStore paidId 7).1 = PayResult.ok u
        ∧ u.status = "paid" ∧ u.updatedAt = 7
        ∧ u.createdAt = sampleStoredTx.createdAt
        ∧ u.totalPrice = sampleStoredTx.totalPrice := by
  have h : lookupTx sampleStore (ObjectIDFromHex paidId) = some sampleStoredTx := rfl
  obtain ⟨u, h1, h2, h3, _, _, _, h7, h8, _⟩ := pay_paid_frame sampleStore paidId 7 sampleStoredTx h
  exact ⟨h, u, h1, h2, h3, h7, h8⟩

/-- C6: when no stored record carries the id the request resolves to —
which covers both an unknown id and a syntactically invalid one, since an
invalid id resolves to the never-generated zero object id — `pay` answers
with the 500 error response, leaves the store unchanged, and never returns
a success. -/
theorem pay_notFound_error (s : Store) (tid : String) (now : Nat)
    (h : ∀ t ∈ s.transactions, t.id ≠ ObjectIDFromHex tid) :
    (pay s tid now).1 = PayResult.error "Failed to update transaction status"
    ∧ (pay s tid now).2 = s
    ∧ (isValidObjectIDHex tid = false → ObjectIDFromHex tid = zeroObjectID) := by
  have hfind : s.transactions.find? (fun t => t.id = ObjectIDFromHex tid) = none := by
    rw [List.find?_eq_none]
    intro t ht
    simpa using h t ht
  have hup := payUpdate_of_find?_eq_none (ObjectIDFromHex tid) now s.transactions hfind
  refine ⟨?_, ?_, ?_⟩
  · simp [pay, hup]
  · simp [pay, hup]
  · intro hv
    simp [ObjectIDFromHex, hv]

/-- C6 witness: paying with the malformed id `"nope"` against the example
store fails with the 500 error, the store is untouched, and the malformed
id indeed resolves to the zero object id. -/
theorem pay_notFound_error_witness :
    (pay sampleStore "nope" 7).1 = PayResult.error "Failed to update transaction status"
    ∧ (pay sampleStore "nope" 7).2 = sampleStore
    ∧ ObjectIDFromHex "nope" = zeroObjectID := by
  obtain ⟨h1, h2, h3⟩ := pay_notFound_error sampleStore "nope" 7 (by decide)
  exact ⟨h1, h2, h3 (by decide)⟩

/-- C2 counterexample: `createTransaction` sets `CreatedAt` and `UpdatedAt`
by two separate `time.Now()` calls (main.go lines 142-143); when the two
clock reads differ (here instants 0 and 1) the returned transaction has
`createdAt ≠ updatedAt`, so the claim "createdAt equal to updatedAt" fails. -/
theorem create_createdAt_ne_updatedAt :
    ∃ t : Transaction,
      (createTransaction emptyStore sampleReq 0 1 false false).result = CreateResult.ok t
      ∧ t.createdAt ≠ t.updatedAt := by
  refine ⟨_, rfl, ?_⟩
  decide

/-- C2 (amended): the transaction produced by create has status
`"awaiting payment"`; `createdAt` is set from the first clock read at
creation time and `updatedAt` from the second, so under a monotonic clock
`createdAt ≤ updatedAt`, with equality exactly when the two reads coincide. -/
theorem create_status_and_timestamps (s : Store) (req : Transaction) (now1 now2 : Nat)
    (insertFails pdfFails : Bool) (t : Transaction) (hmono : now1 ≤ now2)
    (h : (createTransaction s req now1 now2 insertFails pdfFails).result = CreateResult.ok t) :
    t.status = "awaiting payment" ∧ t.createdAt = now1 ∧ t.updatedAt = now2
    ∧ t.createdAt ≤ t.updatedAt := by
  by_cases hf : insertFails
  · simp [createTransaction, hf] at h
  · simp [createTransaction, hf] at h
    subst h
    exact ⟨rfl, rfl, rfl, hmono⟩

/-- C2 (amended) witness: at clock reads 3 then 4 the created transaction
has status `"awaiting payment"`, `createdAt = 3 ≤ 4 = updatedAt`. -/
theorem create_status_and_timestamps_witness :
    ∃ t : Transaction,
      (createTransaction emptyStore sampleReq 3 4 false false).result = CreateResult.ok t
      ∧ t.status = "awaiting payment" ∧ t.createdAt = 3 ∧ t.updatedAt = 4
      ∧ t.createdAt ≤ t.updatedAt := by
  refine ⟨_, rfl, ?_⟩
  exact create_status_and_timestamps emptyStore sampleReq 3 4 false false _
    (by decide) rfl

/-- C3: when the store insert fails, `createTransaction` answers with the
500 persistence error, `generatePDF` is never invoked, the store is
unchanged, and the result is not a success (it is `serverError`, a
constructor distinct from `ok`). -/
theorem create_insertFailure_no_receipt (s : Store) (req : Transaction)
    (now1 now2 : Nat) (pdfFails : Bool) :
    (createTransaction s req now1 now2 true pdfFails).result
      = CreateResult.serverError "failed to insert to DB"
    ∧ (createTransaction s req now1 now2 true pdfFails).pdfInvoked = false
    ∧ (createTransaction s req now1 now2 true pdfFails).store = s := by
  exact ⟨rfl, rfl, rfl⟩

/-- C4: when the insert succeeds, `createTransaction` returns the full
transaction with a 200 result whatever the receipt rendering outcome:
`generatePDF` is invoked, but the HTTP result is the same for a failing and
a succeeding PDF write — render failure never propagates. -/
theorem create_renderFailure_not_propagated (s : Store) (req : Transaction)
    (now1 now2 : Nat) (pdfFails : Bool) :
    (createTransaction s req now1 now2 false pdfFails).result
      = CreateResult.ok
          { req with
              totalPrice := calculateTotalPrice req.cartItems
              status := "awaiting payment"
              createdAt := now1
              updatedAt := now2 }
    ∧ (createTransaction s req now1 now2 false pdfFails).pdfInvoked = true
    ∧ (createTransaction s req now1 now2 false pdfFails).result
      = (createTransaction s req now1 now2 false (!pdfFails)).result := by
  exact ⟨rfl, rfl, rfl⟩

/-- C10: any `status`, `totalPrice`, `createdAt`, `updatedAt` the client
supplies in the request body are ignored — the whole outcome is the same as
for the request with those fields at their zero values, and a successful
result always carries status `"awaiting payment"` and the computed cart
sum. -/
theorem create_ignores_client_fields (s : Store) (req : Transaction)
    (now1 now2 : Nat) (insertFails pdfFails : Bool)
    (st : String) (tp : ℚ) (ca ua : Nat) :
    createTransaction s
        { req with status := st, totalPrice := tp, createdAt := ca, updatedAt := ua }
        now1 now2 insertFails pdfFails
      = createTransaction s req now1 now2 insertFails pdfFails
    ∧ ∀ t, (createTransaction s req now1 now2 insertFails pdfFails).result = CreateResult.ok t →
        t.status = "awaiting payment" ∧ t.totalPrice = calculateTotalPrice req.cartItems := by
  constructor
  · rfl
  · intro t h
    by_cases hf : insertFails
    · simp [createTransaction, hf] at h
    · simp [createTransaction, hf] at h
      subst h
      exact ⟨rfl, rfl⟩

/-- C10 witness: a request pre-filled with `status = "paid"`,
`totalPrice = 123` and nonzero timestamps produces exactly the same outcome
as the clean request, and the returned transaction has status
`"awaiting payment"`. -/
theorem create_ignores_client_fields_witness :
    createTransaction emptyStore
        { sampleReq with status := "paid", totalPrice := 123, createdAt := 9, updatedAt := 9 }
        3 4 false false
      = createTransaction emptyStore sampleReq 3 4 false false
    ∧ ∃ t, (createTransaction emptyStore sampleReq 3 4 false false).result = CreateResult.ok t
        ∧ t.status = "awaiting payment" := by
  refine ⟨(create_ignores_client_fields emptyStore sampleReq 3 4 false false
    "paid" 123 9 9).1, ⟨_, rfl, ?_⟩⟩
  exact ((create_ignores_client_fields emptyStore sampleReq 3 4 false false
    "paid" 123 9 9).2 _ rfl).1

/-- Result of the `getTransactions` handler: the 200 response with the
matching records, or the 500 error response when the store query fails. -/
inductive ListResult where
  | ok (ts : List Transaction)
  | error (msg : String)
deriving DecidableEq

/-- `getTransactions` (main.go lines 157-176): query the collection with
the filter `{"customer.id": customerId}` (string equality on the embedded
customer id) and return the matches in store order; `findFails` is the
store's behaviour for the `Find` call. -/
def getTransactions (s : Store) (customerId : String) (findFails : Bool) : ListResult :=
  if findFails then ListResult.error "find failed"
  else ListResult.ok (s.transactions.filter (fun t => t.customer.id = customerId))

/-- C8: for a customer id with no matching transaction in the store, a
successful `Find` makes `getTransactions` answer 200 with the empty
sequence, not an error. -/
theorem getTransactions_empty_ok (s : Store) (customerId : String)
    (h : ∀ t ∈ s.transactions, t.customer.id ≠ customerId) :
    getTransactions s customerId false = ListResult.ok [] := by
  simp only [getTransactions, if_neg Bool.false_ne_true]
  congr 1
  rw [List.filter_eq_nil_iff]
  intro t ht
  simpa using h t ht

/-- C8 witness: the example store holds only customer `c1`'s transaction,
so listing for customer `c2` yields the empty sequence. -/
theorem getTransactions_empty_ok_witness :
    getTransactions sampleStore "c2" false = ListResult.ok [] := by
  exact getTransactions_empty_ok sampleStore "c2" (by decide)

/-- A JSON value, as read from a request body. -/
inductive Json where
  | null
  | bool (b : Bool)
  | num (q : ℚ)
  | str (s : String)
  | arr (elems : List Json)
  | obj (fields : List (String × Json))

/-- Go struct `PaymentForm` (main.go lines 22-28).  Its fields carry only
`json:` tags — there is no `binding:"required"` tag on any of them. -/
structure PaymentForm where
  cardNumber : String
  expirationDate : String
  cvv : String
  name : String
  address : String
deriving DecidableEq

/-- The JSON keys of `PaymentForm`'s five fields. -/
def paymentFormFieldNames : List String :=
  ["cardNumber", "expirationDate", "cvv", "name", "address"]

/-- ASCII case-insensitive key equality, modelling the `strings.EqualFold`
match `encoding/json` performs between JSON object keys and struct field
names (the five field names are ASCII, so ASCII folding decides it). -/
def keyMatches (k n : String) : Bool := toLowerAscii k = toLowerAscii n

/-- The `PaymentForm` field a JSON object key binds to: `encoding/json`
tries an exact name match first and falls back to a case-insensitive one;
the five names are pairwise distinct under case folding, so folded
equality selects the same field either way.  `none` means the key matches
no field and the decoder skips the member entirely. -/
def matchFieldName (k : String) : Option String :=
  paymentFormFieldNames.find? (fun n => keyMatches k n)

/-- Store a decoded string into the named `PaymentForm` field. -/
def setField (f : PaymentForm) (n : String) (v : String) : PaymentForm :=
  if n = "cardNumber" then { f with cardNumber := v }
  else if n = "expirationDate" then { f with expirationDate := v }
  else if n = "cvv" then { f with cvv := v }
  else if n = "name" then { f with name := v }
  else if n = "address" then { f with address := v }
  else f

/-- One step of `encoding/json` object decoding, on the state (form so
far, first saved error): a member whose key matches no field is skipped
whatever its value; a JSON `null` value is a documented no-op producing no
error; a string value is stored into the field; any other value is an
`UnmarshalTypeError`, saved (the first error wins) while decoding
continues with the remaining members. -/
def decodePair (st : PaymentForm × Option String) (k : String) (v : Json) :
    PaymentForm × Option String :=
  match matchFieldName k with
  | none => st
  | some n =>
    match v with
    | Json.null => st
    | Json.str s => (setField st.1 n s, st.2)
    | _ => (st.1, st.2.or (some ("json: cannot unmarshal into field " ++ n)))

/-- `c.ShouldBindJSON(&paymentForm)` (main.go line 125) for the untagged
`PaymentForm` struct, following `encoding/json`: a JSON `null` body is a
no-op that leaves the zero value; a JSON object is decoded member by
member in input order (duplicate keys included), returning the first
saved type error if any; any other JSON value is a type error. -/
def shouldBindJSONPaymentForm : Json → Except String PaymentForm
  | Json.null => Except.ok ⟨"", "", "", "", ""⟩
  | Json.obj fields =>
      let st := fields.foldl (fun st p => decodePair st p.1 p.2) (⟨"", "", "", "", ""⟩, none)
      match st.2 with
      | some e => Except.error e
      | none => Except.ok st.1
  | _ => Except.error "json: cannot unmarshal into PaymentForm"

/-- The two responses of the `processPayment` handler. -/
inductive PaymentResponse where
  | badRequest (msg : String)
  | success
deriving DecidableEq

/-- `processPayment` (main.go lines 123-131): bind the body into a
`PaymentForm`; on binding failure answer 400, otherwise 200
`{success: true}`.  Nothing is stored and no transaction is referenced. -/
def processPayment (body : Json) : PaymentResponse :=
  match shouldBindJSONPaymentForm body with
  | Except.error e => PaymentResponse.badRequest e
  | Except.ok _ => PaymentResponse.success

/-- Modelled from the spec: shape-validity of a payment request body per
the claim's words — all five required string fields (`cardNumber`,
`expirationDate`, `cvv`, `name`, `address`) present and string-typed. -/
def specShapeValid : Json → Bool
  | Json.obj fields => paymentFormFieldNames.all (fun n =>
      fields.any (fun p =>
        p.1 = n && (match p.2 with | Json.str _ => true | _ => false)))
  | _ => false

/-- One object member is acceptable to the binder: its key targets no
payment field, or its value is `null` (a no-op) or a string. -/
def pairBindsOk (k : String) (v : Json) : Bool :=
  match matchFieldName k with
  | none => true
  | some _ =>
    match v with
    | Json.null => true
    | Json.str _ => true
    | _ => false

/-- A body the untagged binder accepts: JSON `null`, or an object in
which every member whose key matches one of the five payment fields
(case-insensitively) carries a `null` or string value. -/
def bindableForm : Json → Bool
  | Json.null => true
  | Json.obj fields => fields.all (fun p => pairBindsOk p.1 p.2)
  | _ => false

/-- C9 counterexample: the empty JSON object `{}` has none of the five
required fields (it is not shape-valid in the claim's sense), yet
`processPayment` answers success — `PaymentForm` carries no
`binding:"required"` tags, so presence is never checked. -/
theorem processPayment_accepts_missing_fields :
    processPayment (Json.obj []) = PaymentResponse.success
    ∧ specShapeValid (Json.obj []) = false :=
  ⟨rfl, rfl⟩

theorem decodePair_snd_eq_none (st : PaymentForm × Option String) (k : String) (v : Json) :
    (decodePair st k v).2 = none ↔ st.2 = none ∧ pairBindsOk k v = true := by
  unfold decodePair pairBindsOk
  cases matchFieldName k with
  | none => simp
  | some n =>
    cases v with
    | null => simp
    | bool b => rcases st with ⟨f, _ | e⟩ <;> simp [Option.or]
    | num q => rcases st with ⟨f, _ | e⟩ <;> simp [Option.or]
    | str s2 => simp
    | arr elems => rcases st with ⟨f, _ | e⟩ <;> simp [Option.or]
    | obj fs => rcases st with ⟨f, _ | e⟩ <;> simp [Option.or]

theorem foldl_decodePair_snd_eq_none (fields : List (String × Json))
    (st : PaymentForm × Option String) :
    (fields.foldl (fun st p => decodePair st p.1 p.2) st).2 = none
      ↔ st.2 = none ∧ fields.all (fun p => pairBindsOk p.1 p.2) = true := by
  induction fields generalizing st with
  | nil => simp
  | cons p fields ih =>
    rw [List.foldl_cons, ih, decodePair_snd_eq_none]
    simp [List.all_cons, Bool.and_eq_true, and_assoc]

/-- C9 (amended): `processPayment` returns success iff the body is
accepted by the untagged binder — it is JSON `null`, or a JSON object in
which every member whose key matches one of the five payment fields
(case-insensitively) carries a `null` or string value: field presence is
never required (absent fields keep the zero value `""` and a `null` value
is a no-op), members with unmatched keys are ignored, and once bound no
further validation, storage, or linkage to a transaction happens (the
handler reads no state and writes none). -/
theorem processPayment_success_iff (body : Json) :
    processPayment body = PaymentResponse.success ↔ bindableForm body = true := by
  cases body with
  | null => simp [processPayment, shouldBindJSONPaymentForm, bindableForm]
  | bool b => simp [processPayment, shouldBindJSONPaymentForm, bindableForm]
  | num q => simp [processPayment, shouldBindJSONPaymentForm, bindableForm]
  | str s => simp [processPayment, shouldBindJSONPaymentForm, bindableForm]
  | arr elems => simp [processPayment, shouldBindJSONPaymentForm, bindableForm]
  | obj fields =>
    have hkey := foldl_decodePair_snd_eq_none fields (⟨"", "", "", "", ""⟩, none)
    rcases hst : (fields.foldl (fun st p => decodePair st p.1 p.2)
        (⟨"", "", "", "", ""⟩, none)).2 with _ | e
    · obtain ⟨-, hall⟩ := hkey.1 hst
      simp [processPayment, shouldBindJSONPaymentForm, bindableForm, hst, hall]
    · have hall : fields.all (fun p => pairBindsOk p.1 p.2) = false := by
        cases hfa : fields.all (fun p => pairBindsOk p.1 p.2) with
        | false => rfl
        | true => exact absurd (hkey.2 ⟨rfl, hfa⟩) (by simp [hst])
      simp [processPayment, shouldBindJSONPaymentForm, bindableForm, hst, hall]

/-- One inbound request of the transaction service, with the environment
inputs (clock reads, store/file-system failure behaviour) it consumes. -/
inductive Op where
  | createOp (req : Transaction) (now1 now2 : Nat) (insertFails pdfFails : Bool)
  | payOp (tid : String) (now : Nat)
  | listOp (customerId : String) (findFails : Bool)
  | paymentOp (body : Json)

/-- The store after handling one request: `createTransaction` and `pay`
may write; `getTransactions` and `processPayment` never touch the store. -/
def applyOp (s : Store) : Op → Store
  | Op.createOp req now1 now2 insertFails pdfFails =>
      (createTransaction s req now1 now2 insertFails pdfFails).store
  | Op.payOp tid now => (pay s tid now).2
  | Op.listOp _ _ => s
  | Op.paymentOp _ => s

theorem pay_of_lookup_some (s : Store) (tid : String) (now : Nat) (t : Transaction)
    (h : lookupTx s (ObjectIDFromHex tid) = some t) :
    (pay s tid now).1 = PayResult.ok { t with status := "paid", updatedAt := now }
    ∧ lookupTx (pay s tid now).2 (ObjectIDFromHex tid)
        = some { t with status := "paid", updatedAt := now }
    ∧ ∀ i, i ≠ ObjectIDFromHex tid → lookupTx (pay s tid now).2 i = lookupTx s i := by
  obtain ⟨ts', h1, h2, h3⟩ :=
    payUpdate_of_find?_eq_some (ObjectIDFromHex tid) now s.transactions t h
  refine ⟨by simp [pay, h1], by simp [pay, h1, lookupTx, h2], ?_⟩
  intro i hi
  simp [pay, h1, lookupTx, h3 i hi]

/-- C7: the status field is monotonic — after any operation (create, pay,
list, process-payment), a record that was `"paid"` is still found `"paid"`
under its id; and paying an already-paid transaction is not an error: it
succeeds again, the status stays `"paid"` and `updatedAt` is re-stamped
with the new clock read. -/
theorem status_monotonic (s : Store) :
    (∀ op i t, lookupTx s i = some t → t.status = "paid" →
        ∃ u, lookupTx (applyOp s op) i = some u ∧ u.status = "paid")
    ∧ (∀ tid now t, lookupTx s (ObjectIDFromHex tid) = some t → t.status = "paid" →
        ∃ u, (pay s tid now).1 = PayResult.ok u ∧ u.status = "paid" ∧ u.updatedAt = now) := by
  constructor
  · intro op i t h hp
    cases op with
    | createOp req now1 now2 insF pdfF =>
      cases insF with
      | true => exact ⟨t, by simpa [applyOp, createTransaction] using h, hp⟩
      | false =>
        refine ⟨t, ?_, hp⟩
        simp only [applyOp, createTransaction, if_neg Bool.false_ne_true]
        show (s.transactions ++ [_]).find? (fun u => u.id = i) = some t
        unfold lookupTx at h
        rw [List.find?_append, h]
        rfl
    | payOp tid now =>
      rcases hc : lookupTx s (ObjectIDFromHex tid) with _ | t0
      · have hup := payUpdate_of_find?_eq_none (ObjectIDFromHex tid) now s.transactions hc
        exact ⟨t, by simpa [applyOp, pay, hup] using h, hp⟩
      · obtain ⟨_, hafter, hother⟩ := pay_of_lookup_some s tid now t0 hc
        by_cases hi : i = ObjectIDFromHex tid
        · subst hi
          exact ⟨{ t0 with status := "paid", updatedAt := now },
            by simpa [applyOp] using hafter, rfl⟩
        · refine ⟨t, ?_, hp⟩
          show lookupTx (pay s tid now).2 i = some t
          rw [hother i hi]
          exact h
    | listOp customerId findFails => exact ⟨t, h, hp⟩
    | paymentOp body => exact ⟨t, h, hp⟩
  · intro tid now t h _
    obtain ⟨hok, _, _⟩ := pay_of_lookup_some s tid now t h
    exact ⟨{ t with status := "paid", updatedAt := now }, hok, rfl, rfl⟩

/-- The example transaction after it has been paid at clock read 7. -/
def paidTx : Transaction :=
  ⟨paidId, sampleCart, sampleCustomer, "paid", 3, 7, 1499/100⟩

/-- A store holding exactly one already-paid transaction. -/
def paidStore : Store := ⟨[paidTx], 3⟩

/-- C7 witness: re-paying the already-paid example transaction at clock
read 9 keeps it `"paid"` in the store and succeeds again with
`updatedAt = 9`. -/
theorem status_monotonic_witness :
    lookupTx paidStore paidId = some paidTx
    ∧ (∃ u, lookupTx (applyOp paidStore (Op.payOp paidId 9)) paidId = some u
        ∧ u.status = "paid")
    ∧ (∃ u, (pay paidStore paidId 9).1 = PayResult.ok u
        ∧ u.status = "paid" ∧ u.updatedAt = 9) := by
  have h : lookupTx paidStore paidId = some paidTx := rfl
  have h2 : lookupTx paidStore (ObjectIDFromHex paidId) = some paidTx := rfl
  exact ⟨h,
    (status_monotonic paidStore).1 (Op.payOp paidId 9) paidId paidTx h rfl,
    (status_monotonic paidStore).2 paidId 9 paidTx h2 rfl⟩

end Marketplace
